import Mathlib

/-!
Verification development for the arus-kaunter POS backend.

Shallow embedding of the transaction pricing & cash-register settlement
engine (`src/server/src/handlers/transactions.ts`) and the cash-register
lifecycle handlers (the drizzle-backed `openCashRegister` /
`closeCashRegister` implementation).

Modelling conventions:
* Monetary values (stored as SQL `numeric` strings, manipulated as JS
  numbers) are embedded as exact rationals `ℚ`; the `parseFloat` /
  `toString` round-trips at the storage boundary are identities in this
  model.  All monetary inputs are 2-decimal by construction, so the only
  rounding the code performs (`Math.round(x*100)/100` on the payment
  charge) is captured exactly by `jsRound`.
* JavaScript `Math.round` rounds half toward +infinity; it is embedded
  as `fun x => ⌊x + 1/2⌋`.
* The database is an explicit record of tables (lists of rows, in
  storage order); `limit(1)` with no `orderBy` picks the first row in
  storage order (`List.find?`).  Serial primary keys are modelled by
  `nextTransactionId` / `nextRegisterId` counters.
* Handlers are functions `DB → input → Except String (DB × result)`:
  the `Except.error` branch carries no database, which is exactly the
  all-or-nothing behaviour of the `db.transaction` wrapper — on any
  thrown error nothing is persisted.
* Wall-clock time (`new Date()`) is passed in as an explicit parameter;
  the nondeterministic receipt id (`Date.now()`/`Math.random`) is passed
  in as an explicit `receiptId` argument.
* Columns never read by these handlers (timestamps of catalog rows,
  category references, original prices, ...) are omitted from the row
  types.
-/

set_option maxRecDepth 20000

namespace ArusKaunter

/-- A catalog product row (`productsTable`), restricted to the columns the
transaction engine reads. -/
structure Product where
  id : Nat
  name : String
  price_after_discount : ℚ
  is_active : Bool
deriving DecidableEq

/-- A payment method row (`paymentMethodsTable`). -/
structure PaymentMethod where
  id : Nat
  name : String
  transaction_charge_percentage : ℚ
  is_active : Bool
deriving DecidableEq

/-- An automatic discount tier row (`automaticDiscountsTable`). -/
structure AutomaticDiscount where
  id : Nat
  minimum_amount : ℚ
  discount_percentage : ℚ
  is_active : Bool
deriving DecidableEq

/-- A cash register session row (`cashRegistersTable`).  `date` is the
`YYYY-MM-DD` business-date string; timestamps are abstract `Nat` ticks. -/
structure CashRegister where
  id : Nat
  date : String
  starting_capital : ℚ
  cash_sales_total : ℚ
  expected_cash : ℚ
  actual_cash_counted : Option ℚ
  surplus_shortage : Option ℚ
  is_closed : Bool
  opened_at : Nat
  closed_at : Option Nat
deriving DecidableEq

/-- A persisted transaction row (`transactionsTable`). -/
structure Transaction where
  id : Nat
  receipt_id : String
  cash_register_id : Nat
  subtotal : ℚ
  discount_amount : ℚ
  payment_charge : ℚ
  final_total : ℚ
  payment_method_id : Nat
  amount_received : Option ℚ
  change_amount : Option ℚ
deriving DecidableEq

/-- A persisted transaction line item row (`transactionItemsTable`). -/
structure TransactionItem where
  transaction_id : Nat
  product_id : Nat
  quantity : Nat
  unit_price : ℚ
  total_price : ℚ
deriving DecidableEq

/-- One cart line of `createTransactionInputSchema` (`cartItemSchema`):
a product reference and a positive integer quantity. -/
structure CartItem where
  product_id : Nat
  quantity : Nat
deriving DecidableEq

/-- Input type `CreateTransactionInput`: the cart, the payment method reference and
the optional (nullable) amount received. -/
structure CreateTransactionInput where
  items : List CartItem
  payment_method_id : Nat
  amount_received : Option ℚ
deriving DecidableEq

/-- The database state: one list of rows per table, in storage order. -/
structure DB where
  products : List Product
  paymentMethods : List PaymentMethod
  automaticDiscounts : List AutomaticDiscount
  cashRegisters : List CashRegister
  transactions : List Transaction
  transactionItems : List TransactionItem
  nextTransactionId : Nat
  nextRegisterId : Nat
deriving DecidableEq

/-- The intermediate `itemDetails` entries computed in step 3 of
`createTransaction` before rows exist. -/
structure ItemDetail where
  product_id : Nat
  quantity : Nat
  unit_price : ℚ
  total_price : ℚ
deriving DecidableEq

instance {ε α : Type} [DecidableEq ε] [DecidableEq α] : DecidableEq (Except ε α) := fun a b =>
  match a, b with
  | .error e, .error f =>
    decidable_of_iff (e = f) ⟨by rintro rfl; rfl, by intro h; cases h; rfl⟩
  | .ok x, .ok y =>
    decidable_of_iff (x = y) ⟨by rintro rfl; rfl, by intro h; cases h; rfl⟩
  | .error _, .ok _ => isFalse (by intro h; cases h)
  | .ok _, .error _ => isFalse (by intro h; cases h)

/-- JavaScript `Math.round`: round half toward +infinity. -/
def jsRound (x : ℚ) : ℤ := ⌊x + 1/2⌋

/-- JavaScript `String.prototype.toLowerCase` on the ASCII method names
used here: lower-case every character (Lean's `String.toLower` performs
the same basic-latin mapping). -/
def jsToLower (s : String) : String := ⟨s.data.map Char.toLower⟩

/-- Error message thrown at step 1 of `createTransaction`. -/
def noActiveSessionMsg : String :=
  "No active cash register found. Please open a cash register first."

/-- Error message thrown at step 2 of `createTransaction`. -/
def productsNotFoundMsg : String := "Some products are not found or inactive"

/-- Error message thrown at step 5 of `createTransaction`. -/
def paymentMethodNotFoundMsg : String := "Payment method not found or inactive"

/-- Error messages of the cash-register lifecycle handlers. -/
def alreadyOpenTodayMsg : String := "Cash register is already open for today"

def registerNotFoundMsg : String := "Cash register not found"

def alreadyClosedMsg : String := "Cash register is already closed"

/-- Step 1: `select().from(cashRegistersTable).where(is_closed = false).limit(1)` —
the first open register in storage order, if any. -/
def findActiveRegister (db : DB) : Option CashRegister :=
  db.cashRegisters.find? (fun r => !r.is_closed)

/-- Step 2 per-product query:
`select().from(productsTable).where(id = productId AND is_active).limit(1)`. -/
def lookupActiveProduct (db : DB) (pid : Nat) : Option Product :=
  db.products.find? (fun p => p.id == pid && p.is_active)

/-- Step 5 query:
`select().from(paymentMethodsTable).where(id = pmid AND is_active).limit(1)`. -/
def lookupActivePaymentMethod (db : DB) (pmid : Nat) : Option PaymentMethod :=
  db.paymentMethods.find? (fun m => m.id == pmid && m.is_active)

/-- The products collected by the step-2 validation loop: for each cart
product id, the (at most one) active row found is pushed. -/
def collectProducts (db : DB) (pids : List Nat) : List Product :=
  pids.filterMap (lookupActiveProduct db)

/-- The `productMap` lookup (`new Map(products.map(p => [p.id, p]))` then
`productMap.get`).  A JS `Map` keeps the last binding per key, but every
entry of the collected list with a given id is the result of the same
`limit(1)` query, so first-match equals `Map.get`. -/
def productLookup (products : List Product) (pid : Nat) : Option Product :=
  products.find? (fun p => p.id == pid)

/-- Step 3: the `input.items.map(...)` body — unit price is the product's
`price_after_discount`, line total is unit price × quantity; hitting a
missing map entry throws (unreachable after validation). -/
def computeItemDetails (products : List Product) : List CartItem → Except String (List ItemDetail)
  | [] => .ok []
  | item :: rest =>
    match productLookup products item.product_id with
    | none => .error ("Product with ID " ++ toString item.product_id ++ " not found")
    | some p =>
      match computeItemDetails products rest with
      | .error e => .error e
      | .ok ds =>
        .ok ({ product_id := item.product_id, quantity := item.quantity,
               unit_price := p.price_after_discount,
               total_price := p.price_after_discount * (item.quantity : ℚ) } :: ds)

/-- Step 4 query filter: active rules with `minimum_amount ≤ subtotal`,
in storage order. -/
def qualifyingDiscounts (db : DB) (subtotal : ℚ) : List AutomaticDiscount :=
  db.automaticDiscounts.filter (fun d => d.is_active && decide (d.minimum_amount ≤ subtotal))

/-- One comparison step of `orderBy(desc(discount_percentage)).limit(1)`:
a strictly higher percentage displaces the current best, so among equal
percentages the earlier row in storage order is kept. -/
def betterDiscount (b d : AutomaticDiscount) : AutomaticDiscount :=
  if b.discount_percentage < d.discount_percentage then d else b

/-- The `orderBy(desc(discount_percentage)).limit(1)` pick over the qualifying
rules: the first row of maximal percentage. -/
def selectBestDiscount : List AutomaticDiscount → Option AutomaticDiscount
  | [] => none
  | d :: ds => some (ds.foldl betterDiscount d)

/-- Step 4: `discountAmount = (subtotal * discountPercentage) / 100` for
the selected rule, `0` when no rule qualifies. -/
def discountAmountFor (db : DB) (subtotal : ℚ) : ℚ :=
  match selectBestDiscount (qualifyingDiscounts db subtotal) with
  | some d => subtotal * d.discount_percentage / 100
  | none => 0

/-- Step 5: `Math.round(((subtotal - discountAmount) * chargePercentage) / 100 * 100) / 100`. -/
def computePaymentCharge (subtotal discountAmount chargePercentage : ℚ) : ℚ :=
  (jsRound ((subtotal - discountAmount) * chargePercentage / 100 * 100) : ℚ) / 100

/-- Step 7 update: `set(cash_sales_total, expected_cash).where(id = reg.id)` —
the new totals are computed once from the register row read at step 1. -/
def applyCashSale (regs : List CashRegister) (reg : CashRegister) (amount : ℚ) :
    List CashRegister :=
  regs.map (fun r =>
    if r.id = reg.id then
      { r with cash_sales_total := reg.cash_sales_total + amount,
               expected_cash := reg.starting_capital + (reg.cash_sales_total + amount) }
    else r)

/-- Step 6/7: the success branch of `createTransaction` — build the
transaction row, its item rows and (for the cash method) the updated
register list, commit them all together. -/
def mkSuccess (db : DB) (input : CreateTransactionInput) (receiptId : String)
    (reg : CashRegister) (details : List ItemDetail) (pm : PaymentMethod) :
    DB × Transaction :=
  let subtotal := (details.map (fun d => d.total_price)).sum
  let discountAmount := discountAmountFor db subtotal
  let paymentCharge :=
    computePaymentCharge subtotal discountAmount pm.transaction_charge_percentage
  let finalTotal := subtotal - discountAmount + paymentCharge
  let changeAmount := input.amount_received.map (fun a => max 0 (a - finalTotal))
  let txId := db.nextTransactionId
  let tx : Transaction :=
    { id := txId, receipt_id := receiptId, cash_register_id := reg.id,
      subtotal := subtotal, discount_amount := discountAmount,
      payment_charge := paymentCharge, final_total := finalTotal,
      payment_method_id := input.payment_method_id,
      amount_received := input.amount_received, change_amount := changeAmount }
  let newItems := details.map (fun d =>
    ({ transaction_id := txId, product_id := d.product_id, quantity := d.quantity,
       unit_price := d.unit_price, total_price := d.total_price } : TransactionItem))
  let newRegs :=
    if jsToLower pm.name = "cash" then applyCashSale db.cashRegisters reg finalTotal
    else db.cashRegisters
  ({ db with transactions := db.transactions ++ [tx],
             transactionItems := db.transactionItems ++ newItems,
             cashRegisters := newRegs,
             nextTransactionId := txId + 1 }, tx)

/-- Handler `createTransaction` (`src/server/src/handlers/transactions.ts`): the
steps in source order — active-register check, product validation,
pricing, payment-method lookup, atomic persistence. -/
def createTransaction (db : DB) (input : CreateTransactionInput) (receiptId : String) :
    Except String (DB × Transaction) :=
  match findActiveRegister db with
  | none => .error noActiveSessionMsg
  | some reg =>
    let productIds := input.items.map (fun item => item.product_id)
    let products := collectProducts db productIds
    if products.length ≠ productIds.length then .error productsNotFoundMsg
    else
      match computeItemDetails products input.items with
      | .error e => .error e
      | .ok details =>
        match lookupActivePaymentMethod db input.payment_method_id with
        | none => .error paymentMethodNotFoundMsg
        | some pm => .ok (mkSuccess db input receiptId reg details pm)

/-- The database as left by `createTransaction`: unchanged when any step
throws (the `db.transaction` wrapper rolls everything back). -/
def createTransactionDB (db : DB) (input : CreateTransactionInput) (receiptId : String) : DB :=
  match createTransaction db input receiptId with
  | .ok (db', _) => db'
  | .error _ => db

/-- Handler `openCashRegister` (drizzle implementation): rejected when a register
row for `today` is still open, otherwise insert a fresh row. -/
def openCashRegister (db : DB) (today : String) (startingCapital : ℚ) (now : Nat) :
    Except String (DB × CashRegister) :=
  if db.cashRegisters.any (fun r => r.date == today && !r.is_closed) then
    .error alreadyOpenTodayMsg
  else
    let reg : CashRegister :=
      { id := db.nextRegisterId, date := today, starting_capital := startingCapital,
        cash_sales_total := 0, expected_cash := startingCapital,
        actual_cash_counted := none, surplus_shortage := none,
        is_closed := false, opened_at := now, closed_at := none }
    .ok ({ db with cashRegisters := db.cashRegisters ++ [reg],
                   nextRegisterId := db.nextRegisterId + 1 }, reg)

/-- The closing update applied to a register row. -/
def closeUpdate (actualCashCounted surplusShortage : ℚ) (now : Nat)
    (r : CashRegister) : CashRegister :=
  { r with actual_cash_counted := some actualCashCounted,
           surplus_shortage := some surplusShortage,
           is_closed := true, closed_at := some now }

/-- Handler `closeCashRegister` (drizzle implementation): look the row up by id,
reject if absent or already closed, else compute
`surplus = counted - (starting_capital + cash_sales_total)` and stamp the
closing fields. -/
def closeCashRegister (db : DB) (regId : Nat) (actualCashCounted : ℚ) (now : Nat) :
    Except String (DB × CashRegister) :=
  match db.cashRegisters.find? (fun r => r.id == regId) with
  | none => .error registerNotFoundMsg
  | some register =>
    if register.is_closed then .error alreadyClosedMsg
    else
      let expectedCash := register.starting_capital + register.cash_sales_total
      let surplusShortage := actualCashCounted - expectedCash
      let newRegs := db.cashRegisters.map (fun r =>
        if r.id = regId then closeUpdate actualCashCounted surplusShortage now r else r)
      .ok ({ db with cashRegisters := newRegs },
           closeUpdate actualCashCounted surplusShortage now register)

/-! Spec-side definitions, result extractors and concrete fixtures. -/

/-- Spec-side rounding, following the spec's words: “rounded to 2 decimal
places (half-up)”, to be compared with the code's `computePaymentCharge`. -/
def specRoundHalfUp2 (x : ℚ) : ℚ := (⌊x * 100 + 1/2⌋ : ℚ) / 100

/-- The cash-register table as left by a `createTransaction` call:
unchanged on error (rollback), the new table on success. -/
def registersAfter (db : DB) (e : Except String (DB × Transaction)) : List CashRegister :=
  match e with
  | .ok (db2, _) => db2.cashRegisters
  | .error _ => db.cashRegisters

/-- Extract the created transaction's `discount_amount`, if any. -/
def txDiscountOf (e : Except String (DB × Transaction)) : Option ℚ :=
  e.toOption.map (fun o => o.2.discount_amount)

/-- Placeholder transaction row (used only as a `getD` default). -/
def dummyTransaction : Transaction :=
  { id := 0, receipt_id := "", cash_register_id := 0, subtotal := 0,
    discount_amount := 0, payment_charge := 0, final_total := 0,
    payment_method_id := 0, amount_received := none, change_amount := none }

/-- Placeholder register row (used only as a `getD` default). -/
def dummyRegister : CashRegister :=
  { id := 0, date := "", starting_capital := 0, cash_sales_total := 0,
    expected_cash := 0, actual_cash_counted := none, surplus_shortage := none,
    is_closed := false, opened_at := 0, closed_at := none }

/-- Fixture: the open register of the example database. -/
def exReg : CashRegister :=
  { id := 1, date := "2026-02-01", starting_capital := 100, cash_sales_total := 0,
    expected_cash := 100, actual_cash_counted := none, surplus_shortage := none,
    is_closed := false, opened_at := 0, closed_at := none }

/-- Fixture: a closed register from a previous day. -/
def exRegClosed : CashRegister :=
  { id := 2, date := "2026-01-31", starting_capital := 50, cash_sales_total := 20,
    expected_cash := 70, actual_cash_counted := some 70, surplus_shortage := some 0,
    is_closed := true, opened_at := 0, closed_at := some 5 }

/-- Fixture: a second open register (left open on a later date). -/
def exReg2 : CashRegister :=
  { id := 3, date := "2026-02-02", starting_capital := 30, cash_sales_total := 0,
    expected_cash := 30, actual_cash_counted := none, surplus_shortage := none,
    is_closed := false, opened_at := 9, closed_at := none }

/-- Fixture: an active product with discounted unit price 10. -/
def exProduct : Product :=
  { id := 1, name := "Kopi O", price_after_discount := 10, is_active := true }

/-- Fixture: a soft-deleted (inactive) product. -/
def exProductInactive : Product :=
  { id := 2, name := "Teh Tarik", price_after_discount := 4, is_active := false }

/-- Fixture: the cash payment method, no surcharge. -/
def exCash : PaymentMethod :=
  { id := 1, name := "Cash", transaction_charge_percentage := 0, is_active := true }

/-- Fixture: a card payment method with a 2.5% surcharge. -/
def exCard : PaymentMethod :=
  { id := 2, name := "Card", transaction_charge_percentage := 5/2, is_active := true }

/-- Fixture: discount tier “10% from 50”. -/
def exRule10 : AutomaticDiscount :=
  { id := 1, minimum_amount := 50, discount_percentage := 10, is_active := true }

/-- Fixture: discount tier “15% from 100”. -/
def exRule15 : AutomaticDiscount :=
  { id := 2, minimum_amount := 100, discount_percentage := 15, is_active := true }

/-- The example database: one closed and one open register, an active and
an inactive product, cash and card methods, the two spec discount tiers. -/
def exDb : DB :=
  { products := [exProduct, exProductInactive],
    paymentMethods := [exCash, exCard],
    automaticDiscounts := [exRule10, exRule15],
    cashRegisters := [exRegClosed, exReg],
    transactions := [], transactionItems := [],
    nextTransactionId := 1, nextRegisterId := 4 }

/-- A cart of `qty` units of the active product, paid with method `pmid`. -/
def exInputQty (pmid qty : Nat) (ar : Option ℚ) : CreateTransactionInput :=
  { items := [{ product_id := 1, quantity := qty }], payment_method_id := pmid,
    amount_received := ar }

/-- Database with two open sessions (an earlier day's register was never
closed) — reachable because `openCashRegister` only blocks a same-date
duplicate. -/
def exTwoOpenDb : DB := { exDb with cashRegisters := [exReg, exReg2] }

/-- Database with no open session. -/
def exNoOpenDb : DB := { exDb with cashRegisters := [exRegClosed] }

/-- A successful example run used by witnesses: 5 units at 10 on card
(subtotal 50, tier-10 discount 5, 2.5% surcharge 1.13, total 46.13). -/
def exRunCard : Except String (DB × Transaction) :=
  createTransaction exDb (exInputQty 2 5 (some 50)) "RCP-1"

def exOutCard : DB × Transaction := exRunCard.toOption.getD (exDb, dummyTransaction)

/-- A successful cash run used by witnesses: 5 units at 10 on cash. -/
def exRunCash : Except String (DB × Transaction) :=
  createTransaction exDb (exInputQty 1 5 (some 50)) "RCP-2"

def exOutCash : DB × Transaction := exRunCash.toOption.getD (exDb, dummyTransaction)

/-- A successful close of the open example register, counted cash 95. -/
def exRunClose : Except String (DB × CashRegister) := closeCashRegister exDb 1 95 7

def exOutClose : DB × CashRegister := exRunClose.toOption.getD (exDb, dummyRegister)

/-! Structural lemmas about the success branch. -/

/-- A computation known (by evaluation) to be `ok` equals `ok` of the
components extracted from it. -/
theorem ok_of_isOk {ε α β : Type} (e : Except ε (α × β)) (d : α × β) (h : e.isOk = true) :
    e = .ok ((e.toOption.getD d).1, (e.toOption.getD d).2) := by
  cases e with
  | error _ => simp [Except.isOk, Except.toBool] at h
  | ok x => simp [Except.toOption]

theorem mkSuccess_subtotal (db : DB) (input : CreateTransactionInput) (rid : String)
    (reg : CashRegister) (details : List ItemDetail) (pm : PaymentMethod) :
    (mkSuccess db input rid reg details pm).2.subtotal
      = (details.map (fun d => d.total_price)).sum := rfl

theorem mkSuccess_discount (db : DB) (input : CreateTransactionInput) (rid : String)
    (reg : CashRegister) (details : List ItemDetail) (pm : PaymentMethod) :
    (mkSuccess db input rid reg details pm).2.discount_amount
      = discountAmountFor db (mkSuccess db input rid reg details pm).2.subtotal := rfl

theorem mkSuccess_charge (db : DB) (input : CreateTransactionInput) (rid : String)
    (reg : CashRegister) (details : List ItemDetail) (pm : PaymentMethod) :
    (mkSuccess db input rid reg details pm).2.payment_charge
      = computePaymentCharge (mkSuccess db input rid reg details pm).2.subtotal
          (mkSuccess db input rid reg details pm).2.discount_amount
          pm.transaction_charge_percentage := rfl

theorem mkSuccess_final (db : DB) (input : CreateTransactionInput) (rid : String)
    (reg : CashRegister) (details : List ItemDetail) (pm : PaymentMethod) :
    (mkSuccess db input rid reg details pm).2.final_total
      = (mkSuccess db input rid reg details pm).2.subtotal
        - (mkSuccess db input rid reg details pm).2.discount_amount
        + (mkSuccess db input rid reg details pm).2.payment_charge := rfl

theorem mkSuccess_transactions (db : DB) (input : CreateTransactionInput) (rid : String)
    (reg : CashRegister) (details : List ItemDetail) (pm : PaymentMethod) :
    (mkSuccess db input rid reg details pm).1.transactions
      = db.transactions ++ [(mkSuccess db input rid reg details pm).2] := rfl

theorem mkSuccess_items (db : DB) (input : CreateTransactionInput) (rid : String)
    (reg : CashRegister) (details : List ItemDetail) (pm : PaymentMethod) :
    (mkSuccess db input rid reg details pm).1.transactionItems
      = db.transactionItems ++ details.map (fun d =>
          ({ transaction_id := db.nextTransactionId, product_id := d.product_id,
             quantity := d.quantity, unit_price := d.unit_price,
             total_price := d.total_price } : TransactionItem)) := rfl

theorem mkSuccess_registers (db : DB) (input : CreateTransactionInput) (rid : String)
    (reg : CashRegister) (details : List ItemDetail) (pm : PaymentMethod) :
    (mkSuccess db input rid reg details pm).1.cashRegisters
      = if jsToLower pm.name = "cash" then
          applyCashSale db.cashRegisters reg (mkSuccess db input rid reg details pm).2.final_total
        else db.cashRegisters := rfl

theorem mkSuccess_amount_received (db : DB) (input : CreateTransactionInput) (rid : String)
    (reg : CashRegister) (details : List ItemDetail) (pm : PaymentMethod) :
    (mkSuccess db input rid reg details pm).2.amount_received = input.amount_received := rfl

theorem mkSuccess_change (db : DB) (input : CreateTransactionInput) (rid : String)
    (reg : CashRegister) (details : List ItemDetail) (pm : PaymentMethod) :
    (mkSuccess db input rid reg details pm).2.change_amount
      = input.amount_received.map
          (fun a => max 0 (a - (mkSuccess db input rid reg details pm).2.final_total)) := rfl

/-- Success-shape of `createTransaction`: an `ok` result means every
precondition step passed and the outcome is the `mkSuccess` commit. -/
theorem createTransaction_ok (db : DB) (input : CreateTransactionInput) (rid : String)
    (out : DB × Transaction) (h : createTransaction db input rid = .ok out) :
    ∃ reg details pm,
      findActiveRegister db = some reg ∧
      (collectProducts db (input.items.map (fun item => item.product_id))).length
        = (input.items.map (fun item => item.product_id)).length ∧
      computeItemDetails (collectProducts db (input.items.map (fun item => item.product_id)))
        input.items = .ok details ∧
      lookupActivePaymentMethod db input.payment_method_id = some pm ∧
      out = mkSuccess db input rid reg details pm := by
  unfold createTransaction at h
  split at h
  · exact Except.noConfusion h
  case _ reg hreg =>
    simp only [] at h
    split at h
    · exact Except.noConfusion h
    case _ hlen =>
      split at h
      · exact Except.noConfusion h
      case _ details hdet =>
        split at h
        · exact Except.noConfusion h
        case _ pm hpm =>
          exact ⟨reg, details, pm, hreg, not_ne_iff.mp hlen, hdet, hpm,
                 (Except.ok.inj h).symm⟩

/-- Claim C1: in every successfully created transaction, the returned and
persisted row satisfies `final_total = subtotal - discount_amount +
payment_charge` — exactly (as rationals), hence in particular to
two-decimal monetary precision. -/
theorem claim1_final_total_invariant (db : DB) (input : CreateTransactionInput)
    (rid : String) (db2 : DB) (tx : Transaction)
    (h : createTransaction db input rid = .ok (db2, tx)) :
    db2.transactions = db.transactions ++ [tx] ∧
    tx.final_total = tx.subtotal - tx.discount_amount + tx.payment_charge := by
  obtain ⟨reg, details, pm, -, -, -, -, hout⟩ :=
    createTransaction_ok db input rid (db2, tx) h
  have h1 : db2 = (mkSuccess db input rid reg details pm).1 := congrArg Prod.fst hout
  have h2 : tx = (mkSuccess db input rid reg details pm).2 := congrArg Prod.snd hout
  subst h1; subst h2
  exact ⟨mkSuccess_transactions db input rid reg details pm,
         mkSuccess_final db input rid reg details pm⟩

/-- Witness for C1: the card example run succeeds and satisfies the
invariant. -/
theorem claim1_witness :
    exRunCard = .ok (exOutCard.1, exOutCard.2) ∧
    (exOutCard.1.transactions = exDb.transactions ++ [exOutCard.2] ∧
     exOutCard.2.final_total
       = exOutCard.2.subtotal - exOutCard.2.discount_amount + exOutCard.2.payment_charge) :=
  ⟨ok_of_isOk exRunCard (exDb, dummyTransaction) (by with_unfolding_all decide),
   claim1_final_total_invariant exDb (exInputQty 2 5 (some 50)) "RCP-1" exOutCard.1 exOutCard.2
     (ok_of_isOk exRunCard (exDb, dummyTransaction) (by with_unfolding_all decide))⟩

/-- Claim C9: with `amount_received` provided, the created transaction's
change is `max 0 (amount_received - final_total)`; with it absent, change
is absent; the two fields are mutually present or absent. -/
theorem claim9_change_amount (db : DB) (input : CreateTransactionInput)
    (rid : String) (db2 : DB) (tx : Transaction)
    (h : createTransaction db input rid = .ok (db2, tx)) :
    tx.amount_received = input.amount_received ∧
    (∀ a, input.amount_received = some a →
       tx.change_amount = some (max 0 (a - tx.final_total))) ∧
    (input.amount_received = none → tx.change_amount = none) ∧
    tx.amount_received.isSome = tx.change_amount.isSome := by
  obtain ⟨reg, details, pm, -, -, -, -, hout⟩ :=
    createTransaction_ok db input rid (db2, tx) h
  have h2 : tx = (mkSuccess db input rid reg details pm).2 := congrArg Prod.snd hout
  subst h2
  refine ⟨mkSuccess_amount_received db input rid reg details pm, ?_, ?_, ?_⟩
  · intro a ha
    rw [mkSuccess_change, ha]; rfl
  · intro ha
    rw [mkSuccess_change, ha]; rfl
  · cases har : input.amount_received <;>
      simp [mkSuccess_amount_received, mkSuccess_change, har]

/-- Witness for C9: the card run received 50, so change is
`max 0 (50 - final_total)` and both fields are present. -/
theorem claim9_witness :
    exOutCard.2.amount_received = some 50 ∧
    exOutCard.2.change_amount = some (max 0 (50 - exOutCard.2.final_total)) := by
  have h := claim9_change_amount exDb (exInputQty 2 5 (some 50)) "RCP-1"
    exOutCard.1 exOutCard.2
    (ok_of_isOk exRunCard (exDb, dummyTransaction) (by with_unfolding_all decide))
  exact ⟨h.1, h.2.1 50 rfl⟩

/-- Claim C5: the surcharge is `(subtotal - discount) * charge% / 100`
rounded half-up to 2 decimals (the code's `Math.round(x*100)/100`), the
final total adds the rounded surcharge without re-rounding, and a 2.5%
charge on subtotal 50 with discount 5 gives exactly 1.13. -/
theorem claim5_payment_charge_rounding :
    (∀ s d c : ℚ, computePaymentCharge s d c = specRoundHalfUp2 ((s - d) * c / 100)) ∧
    (∀ (db : DB) (input : CreateTransactionInput) (rid : String) (db2 : DB) (tx : Transaction),
       createTransaction db input rid = .ok (db2, tx) →
       ∃ pm, lookupActivePaymentMethod db input.payment_method_id = some pm ∧
         tx.payment_charge
           = computePaymentCharge tx.subtotal tx.discount_amount
               pm.transaction_charge_percentage ∧
         tx.final_total = tx.subtotal - tx.discount_amount + tx.payment_charge) ∧
    computePaymentCharge 50 5 (5/2) = 113/100 := by
  refine ⟨?_, ?_, by with_unfolding_all decide⟩
  · intro s d c; rfl
  · intro db input rid db2 tx h
    obtain ⟨reg, details, pm, -, -, -, hpm, hout⟩ :=
      createTransaction_ok db input rid (db2, tx) h
    have h2 : tx = (mkSuccess db input rid reg details pm).2 := congrArg Prod.snd hout
    subst h2
    exact ⟨pm, hpm, mkSuccess_charge db input rid reg details pm,
           mkSuccess_final db input rid reg details pm⟩

/-- Witness for C5: the concrete 1.13 computation, its agreement with the
spec-side rounding, and the card example run's charge fields. -/
theorem claim5_witness :
    computePaymentCharge 50 5 (5/2) = specRoundHalfUp2 ((50 - 5) * (5/2) / 100) ∧
    computePaymentCharge 50 5 (5/2) = 113/100 ∧
    exOutCard.2.payment_charge
      = computePaymentCharge exOutCard.2.subtotal exOutCard.2.discount_amount
          exCard.transaction_charge_percentage ∧
    exOutCard.2.final_total
      = exOutCard.2.subtotal - exOutCard.2.discount_amount + exOutCard.2.payment_charge := by
  obtain ⟨pm, hpm, hch, hfin⟩ := claim5_payment_charge_rounding.2.1 exDb
    (exInputQty 2 5 (some 50)) "RCP-1" exOutCard.1 exOutCard.2
    (ok_of_isOk exRunCard (exDb, dummyTransaction) (by with_unfolding_all decide))
  have hpm2 : pm = exCard := by
    have hc : lookupActivePaymentMethod exDb 2 = some exCard := by with_unfolding_all decide
    exact Option.some.inj (hpm.symm.trans hc)
  subst hpm2
  exact ⟨claim5_payment_charge_rounding.1 50 5 (5/2),
         claim5_payment_charge_rounding.2.2, hch, hfin⟩

/-- Counterexample to C2 as stated: a database in which TWO sessions are
open (an earlier day's register was never closed) — `createTransaction`
does not fail, it silently uses the first open register, so "exactly one
open session required, otherwise fail" is not what the code checks. -/
theorem claim2_counterexample :
    (exTwoOpenDb.cashRegisters.filter (fun r => !r.is_closed)).length = 2 ∧
    (createTransaction exTwoOpenDb (exInputQty 1 1 none) "RCP-3").isOk = true := by
  with_unfolding_all decide

/-- Claim C2 (amended): `createTransaction` requires at least one open
session (using the first open one found); when no session is open it
fails with the no-active-session error and persists nothing. -/
theorem claim2_no_open_session (db : DB) (input : CreateTransactionInput) (rid : String)
    (h : ∀ r ∈ db.cashRegisters, r.is_closed = true) :
    createTransaction db input rid = .error noActiveSessionMsg ∧
    createTransactionDB db input rid = db := by
  have hf : findActiveRegister db = none := by
    rw [findActiveRegister, List.find?_eq_none]
    intro r hr
    simp [h r hr]
  have herr : createTransaction db input rid = .error noActiveSessionMsg := by
    simp [createTransaction, hf]
  exact ⟨herr, by simp [createTransactionDB, herr]⟩

/-- Witness for the amended C2: with only a closed register present the
call errors and the database is untouched. -/
theorem claim2_witness :
    createTransaction exNoOpenDb (exInputQty 1 1 none) "RCP-4" = .error noActiveSessionMsg ∧
    createTransactionDB exNoOpenDb (exInputQty 1 1 none) "RCP-4" = exNoOpenDb :=
  claim2_no_open_session exNoOpenDb (exInputQty 1 1 none) "RCP-4" (by decide)

/-- A failing lookup strictly shrinks `filterMap`. -/
theorem length_filterMap_lt_of_none {α β : Type} (f : α → Option β) (l : List α)
    (x : α) (hx : x ∈ l) (hfx : f x = none) :
    (l.filterMap f).length < l.length := by
  induction l with
  | nil => cases hx
  | cons a t ih =>
    rcases List.mem_cons.mp hx with rfl | hxt
    · simp only [List.filterMap_cons, hfx]
      exact Nat.lt_succ_of_le (List.length_filterMap_le f t)
    · cases hfa : f a with
      | none =>
        simp only [List.filterMap_cons, hfa]
        exact Nat.lt_succ_of_lt (ih hxt)
      | some b =>
        simp only [List.filterMap_cons, hfa, List.length_cons]
        exact Nat.succ_lt_succ (ih hxt)

/-- Claim C3: with an open session, a cart referencing any missing or
inactive product makes `createTransaction` fail with the products error
(before any pricing or payment-method processing — no hypothesis about
the payment method is needed) and persist nothing. -/
theorem claim3_product_validation (db : DB) (input : CreateTransactionInput) (rid : String)
    (reg : CashRegister) (hreg : findActiveRegister db = some reg)
    (item : CartItem) (hitem : item ∈ input.items)
    (hprod : lookupActiveProduct db item.product_id = none) :
    createTransaction db input rid = .error productsNotFoundMsg ∧
    createTransactionDB db input rid = db := by
  have hlt : (collectProducts db (input.items.map (fun it => it.product_id))).length
      < (input.items.map (fun it => it.product_id)).length :=
    length_filterMap_lt_of_none (lookupActiveProduct db) _ item.product_id
      (List.mem_map_of_mem (fun it => it.product_id) hitem) hprod
  have hne : (collectProducts db (input.items.map (fun it => it.product_id))).length
      ≠ (input.items.map (fun it => it.product_id)).length := Nat.ne_of_lt hlt
  have herr : createTransaction db input rid = .error productsNotFoundMsg := by
    simp only [createTransaction, hreg]
    rw [if_pos hne]
  exact ⟨herr, by simp [createTransactionDB, herr]⟩

/-- Witness for C3: referencing the inactive catalog product fails with
the products error and leaves the example database unchanged. -/
theorem claim3_witness :
    createTransaction exDb
      { items := [{ product_id := 2, quantity := 1 }], payment_method_id := 1,
        amount_received := none } "RCP-5" = .error productsNotFoundMsg ∧
    createTransactionDB exDb
      { items := [{ product_id := 2, quantity := 1 }], payment_method_id := 1,
        amount_received := none } "RCP-5" = exDb :=
  claim3_product_validation exDb
    { items := [{ product_id := 2, quantity := 1 }], payment_method_id := 1,
      amount_received := none } "RCP-5" exReg (by with_unfolding_all decide)
    { product_id := 2, quantity := 1 } (by decide) (by with_unfolding_all decide)

/-! Lemmas about the best-discount selection. -/

theorem foldl_betterDiscount_mem (ds : List AutomaticDiscount) (b : AutomaticDiscount) :
    ds.foldl betterDiscount b = b ∨ ds.foldl betterDiscount b ∈ ds := by
  induction ds generalizing b with
  | nil => exact Or.inl rfl
  | cons d t ih =>
    rw [List.foldl_cons]
    rcases ih (betterDiscount b d) with h | h
    · rw [h, betterDiscount]
      split
      · exact Or.inr (List.mem_cons_self d t)
      · exact Or.inl rfl
    · exact Or.inr (List.mem_cons_of_mem d h)

theorem foldl_betterDiscount_le_init (ds : List AutomaticDiscount) (b : AutomaticDiscount) :
    b.discount_percentage ≤ (ds.foldl betterDiscount b).discount_percentage := by
  induction ds generalizing b with
  | nil => exact le_refl _
  | cons d t ih =>
    rw [List.foldl_cons]
    refine le_trans ?_ (ih (betterDiscount b d))
    rw [betterDiscount]
    split
    · exact le_of_lt (by assumption)
    · exact le_refl _

theorem foldl_betterDiscount_le_mem (ds : List AutomaticDiscount) :
    ∀ (b d2 : AutomaticDiscount), d2 ∈ ds →
      d2.discount_percentage ≤ (ds.foldl betterDiscount b).discount_percentage := by
  induction ds with
  | nil => intro b d2 hd2; cases hd2
  | cons d t ih =>
    intro b d2 hd2
    rw [List.foldl_cons]
    rcases List.mem_cons.mp hd2 with rfl | hmem
    · refine le_trans ?_ (foldl_betterDiscount_le_init t (betterDiscount b d2))
      rw [betterDiscount]
      split
      · exact le_refl _
      · exact le_of_not_lt (by assumption)
    · exact ih (betterDiscount b d) d2 hmem

theorem selectBestDiscount_mem {ds : List AutomaticDiscount} {d : AutomaticDiscount}
    (h : selectBestDiscount ds = some d) : d ∈ ds := by
  cases ds with
  | nil => cases h
  | cons a t =>
    have hd : t.foldl betterDiscount a = d := Option.some.inj h
    rcases foldl_betterDiscount_mem t a with h1 | h1
    · rw [hd] at h1
      exact h1 ▸ List.mem_cons_self a t
    · rw [hd] at h1
      exact List.mem_cons_of_mem a h1

theorem selectBestDiscount_max {ds : List AutomaticDiscount} {d : AutomaticDiscount}
    (h : selectBestDiscount ds = some d) :
    ∀ d2 ∈ ds, d2.discount_percentage ≤ d.discount_percentage := by
  cases ds with
  | nil => cases h
  | cons a t =>
    have hd : t.foldl betterDiscount a = d := Option.some.inj h
    intro d2 hd2
    rcases List.mem_cons.mp hd2 with rfl | hmem
    · rw [← hd]; exact foldl_betterDiscount_le_init t d2
    · rw [← hd]; exact foldl_betterDiscount_le_mem t _ d2 hmem

theorem selectBestDiscount_eq_none {ds : List AutomaticDiscount}
    (h : selectBestDiscount ds = none) : ds = [] := by
  cases ds with
  | nil => rfl
  | cons a t => exact Option.noConfusion h

theorem mem_qualifyingDiscounts {db : DB} {s : ℚ} {d : AutomaticDiscount} :
    d ∈ qualifyingDiscounts db s ↔
      d ∈ db.automaticDiscounts ∧ d.is_active = true ∧ d.minimum_amount ≤ s := by
  simp [qualifyingDiscounts, List.mem_filter, and_assoc]

/-- Claim C4: the discount applied by `createTransaction` is
`discountAmountFor`; the selected rule is an active qualifying rule of
maximal percentage with amount `subtotal * pct / 100`, and `0` when no
active rule qualifies; on the spec's two tiers, subtotals 120 / 60 / 40
yield discounts 18 / 6 / 0. -/
theorem claim4_discount_selection :
    (∀ (db : DB) (input : CreateTransactionInput) (rid : String) (db2 : DB) (tx : Transaction),
       createTransaction db input rid = .ok (db2, tx) →
       tx.discount_amount = discountAmountFor db tx.subtotal) ∧
    (∀ (db : DB) (s : ℚ),
       (∃ d, selectBestDiscount (qualifyingDiscounts db s) = some d ∧
          d ∈ db.automaticDiscounts ∧ d.is_active = true ∧ d.minimum_amount ≤ s ∧
          (∀ d2 ∈ db.automaticDiscounts, d2.is_active = true → d2.minimum_amount ≤ s →
             d2.discount_percentage ≤ d.discount_percentage) ∧
          discountAmountFor db s = s * d.discount_percentage / 100) ∨
       ((∀ d2 ∈ db.automaticDiscounts, d2.is_active = true → ¬ d2.minimum_amount ≤ s) ∧
        discountAmountFor db s = 0)) ∧
    txDiscountOf (createTransaction exDb (exInputQty 1 12 none) "D1") = some 18 ∧
    txDiscountOf (createTransaction exDb (exInputQty 1 6 none) "D2") = some 6 ∧
    txDiscountOf (createTransaction exDb (exInputQty 1 4 none) "D3") = some 0 := by
  refine ⟨?_, ?_, by with_unfolding_all decide, by with_unfolding_all decide,
          by with_unfolding_all decide⟩
  · intro db input rid db2 tx h
    obtain ⟨reg, details, pm, -, -, -, -, hout⟩ :=
      createTransaction_ok db input rid (db2, tx) h
    have h2 : tx = (mkSuccess db input rid reg details pm).2 := congrArg Prod.snd hout
    subst h2
    exact mkSuccess_discount db input rid reg details pm
  · intro db s
    cases hsel : selectBestDiscount (qualifyingDiscounts db s) with
    | some d =>
      left
      have hq := mem_qualifyingDiscounts.mp (selectBestDiscount_mem hsel)
      refine ⟨d, hsel ▸ rfl, hq.1, hq.2.1, hq.2.2, ?_, ?_⟩
      · intro d2 hd2 hact hmin
        exact selectBestDiscount_max hsel d2
          (mem_qualifyingDiscounts.mpr ⟨hd2, hact, hmin⟩)
      · simp only [discountAmountFor, hsel]
    | none =>
      right
      have hnil := selectBestDiscount_eq_none hsel
      constructor
      · intro d2 hd2 hact hmin
        have hd2q : d2 ∈ qualifyingDiscounts db s :=
          mem_qualifyingDiscounts.mpr ⟨hd2, hact, hmin⟩
        rw [hnil] at hd2q
        cases hd2q
      · simp only [discountAmountFor, hsel]

/-- Witness for C4: the card example run's persisted discount equals
`discountAmountFor` at its subtotal. -/
theorem claim4_witness :
    exOutCard.2.discount_amount = discountAmountFor exDb exOutCard.2.subtotal :=
  claim4_discount_selection.1 exDb (exInputQty 2 5 (some 50)) "RCP-1"
    exOutCard.1 exOutCard.2
    (ok_of_isOk exRunCard (exDb, dummyTransaction) (by with_unfolding_all decide))

/-- Claim C7: on success, when the payment method's lower-cased name is
"cash" the open session's `cash_sales_total` grows by exactly
`final_total` and `expected_cash` is re-established as
`starting_capital + cash_sales_total` (so, given the session invariant,
it also grows by exactly `final_total`); for any other method the
register table is untouched. -/
theorem claim7_cash_session_update (db : DB) (input : CreateTransactionInput)
    (rid : String) (db2 : DB) (tx : Transaction)
    (h : createTransaction db input rid = .ok (db2, tx)) :
    ∃ reg pm, findActiveRegister db = some reg ∧
      lookupActivePaymentMethod db input.payment_method_id = some pm ∧
      ((jsToLower pm.name = "cash" →
         db2.cashRegisters = applyCashSale db.cashRegisters reg tx.final_total ∧
         ∃ r2, r2 ∈ db2.cashRegisters ∧
           r2.cash_sales_total = reg.cash_sales_total + tx.final_total ∧
           r2.starting_capital = reg.starting_capital ∧
           r2.expected_cash = r2.starting_capital + r2.cash_sales_total ∧
           (reg.expected_cash = reg.starting_capital + reg.cash_sales_total →
              r2.expected_cash = reg.expected_cash + tx.final_total)) ∧
       (¬ jsToLower pm.name = "cash" → db2.cashRegisters = db.cashRegisters)) := by
  obtain ⟨reg, details, pm, hreg, -, -, hpm, hout⟩ :=
    createTransaction_ok db input rid (db2, tx) h
  have h1 : db2 = (mkSuccess db input rid reg details pm).1 := congrArg Prod.fst hout
  have h2 : tx = (mkSuccess db input rid reg details pm).2 := congrArg Prod.snd hout
  subst h1; subst h2
  have hmem : reg ∈ db.cashRegisters := by
    rw [findActiveRegister] at hreg
    exact List.mem_of_find?_eq_some hreg
  refine ⟨reg, pm, hreg, hpm, ?_, ?_⟩
  · intro hcash
    refine ⟨by rw [mkSuccess_registers, if_pos hcash], ?_⟩
    refine ⟨{ reg with
        cash_sales_total :=
          reg.cash_sales_total + (mkSuccess db input rid reg details pm).2.final_total,
        expected_cash := reg.starting_capital
          + (reg.cash_sales_total + (mkSuccess db input rid reg details pm).2.final_total) },
      ?_, rfl, rfl, rfl, ?_⟩
    · rw [mkSuccess_registers, if_pos hcash, applyCashSale]
      have hmap := List.mem_map_of_mem (fun r =>
        if r.id = reg.id then
          { r with
            cash_sales_total :=
              reg.cash_sales_total + (mkSuccess db input rid reg details pm).2.final_total,
            expected_cash := reg.starting_capital
              + (reg.cash_sales_total
                 + (mkSuccess db input rid reg details pm).2.final_total) }
        else r) hmem
      simpa using hmap
    · intro hinv
      show reg.starting_capital
          + (reg.cash_sales_total + (mkSuccess db input rid reg details pm).2.final_total)
        = reg.expected_cash + (mkSuccess db input rid reg details pm).2.final_total
      rw [hinv, add_assoc]
  · intro hnc
    rw [mkSuccess_registers, if_neg hnc]

/-- Witness for C7: the cash run updates the register table by
`applyCashSale`; the card run leaves it unchanged. -/
theorem claim7_witness :
    findActiveRegister exDb = some exReg ∧
    lookupActivePaymentMethod exDb 1 = some exCash ∧
    jsToLower exCash.name = "cash" ∧
    exOutCash.1.cashRegisters = applyCashSale exDb.cashRegisters exReg exOutCash.2.final_total ∧
    exOutCard.1.cashRegisters = exDb.cashRegisters := by
  obtain ⟨reg, pm, hreg, hpm, hc, -⟩ := claim7_cash_session_update exDb
    (exInputQty 1 5 (some 50)) "RCP-2" exOutCash.1 exOutCash.2
    (ok_of_isOk exRunCash (exDb, dummyTransaction) (by with_unfolding_all decide))
  have e1 : reg = exReg := by
    have hx : findActiveRegister exDb = some exReg := by with_unfolding_all decide
    exact Option.some.inj (hreg.symm.trans hx)
  have e2 : pm = exCash := by
    have hx : lookupActivePaymentMethod exDb 1 = some exCash := by with_unfolding_all decide
    exact Option.some.inj (hpm.symm.trans hx)
  subst e1; subst e2
  have hcash : jsToLower exCash.name = "cash" := by decide
  obtain ⟨hregs, -⟩ := hc hcash
  obtain ⟨reg2, pm2, -, hpm2, -, hnc⟩ := claim7_cash_session_update exDb
    (exInputQty 2 5 (some 50)) "RCP-1" exOutCard.1 exOutCard.2
    (ok_of_isOk exRunCard (exDb, dummyTransaction) (by with_unfolding_all decide))
  have e3 : pm2 = exCard := by
    have hx : lookupActivePaymentMethod exDb 2 = some exCard := by with_unfolding_all decide
    exact Option.some.inj (hpm2.symm.trans hx)
  subst e3
  exact ⟨hreg, hpm, hcash, hregs, hnc (by decide)⟩

/-- Claim C10 (implicit): whether the session's cash totals are updated
is decided solely by the payment method's name compared case-insensitively
to "cash"; the presence of `amount_received` (hence of `change_amount`)
has no effect on the resulting register table. -/
theorem claim10_cash_update_independent (db : DB) (items : List CartItem) (pmid : Nat)
    (ar1 ar2 : Option ℚ) (rid : String) :
    registersAfter db (createTransaction db ⟨items, pmid, ar1⟩ rid)
      = registersAfter db (createTransaction db ⟨items, pmid, ar2⟩ rid) ∧
    (∀ (db2 : DB) (tx : Transaction),
       createTransaction db ⟨items, pmid, ar1⟩ rid = .ok (db2, tx) →
       ∃ reg pm, findActiveRegister db = some reg ∧
         lookupActivePaymentMethod db pmid = some pm ∧
         db2.cashRegisters
           = (if jsToLower pm.name = "cash"
              then applyCashSale db.cashRegisters reg tx.final_total
              else db.cashRegisters)) := by
  constructor
  · cases hreg : findActiveRegister db with
    | none => simp only [createTransaction, hreg, registersAfter]
    | some reg =>
      by_cases hlen : (collectProducts db (items.map (fun item => item.product_id))).length
          ≠ (items.map (fun item => item.product_id)).length
      · simp only [createTransaction, hreg, registersAfter]
        rw [if_pos hlen, if_pos hlen]
      · cases hdet : computeItemDetails
            (collectProducts db (items.map (fun item => item.product_id))) items with
        | error e =>
          simp only [createTransaction, hreg, hdet, registersAfter]
        | ok details =>
          cases hpm : lookupActivePaymentMethod db pmid with
          | none =>
            simp only [createTransaction, hreg, hdet, hpm, registersAfter]
          | some pm =>
            simp only [createTransaction, hreg, hdet, hpm, registersAfter]
            rw [if_neg hlen, if_neg hlen]
            rfl
  · intro db2 tx h
    obtain ⟨reg, details, pm, hreg, -, -, hpm, hout⟩ :=
      createTransaction_ok db ⟨items, pmid, ar1⟩ rid (db2, tx) h
    have h1 : db2 = (mkSuccess db ⟨items, pmid, ar1⟩ rid reg details pm).1 :=
      congrArg Prod.fst hout
    have h2 : tx = (mkSuccess db ⟨items, pmid, ar1⟩ rid reg details pm).2 :=
      congrArg Prod.snd hout
    subst h1; subst h2
    exact ⟨reg, pm, hreg, hpm, mkSuccess_registers db ⟨items, pmid, ar1⟩ rid reg details pm⟩

/-- Witness for C10: providing 50 versus omitting `amount_received` gives
the same register table, and the cash run's table equals the branch on
the lower-cased method name. -/
theorem claim10_witness :
    registersAfter exDb
        (createTransaction exDb ⟨[{ product_id := 1, quantity := 5 }], 1, some 50⟩ "RCP-2")
      = registersAfter exDb
        (createTransaction exDb ⟨[{ product_id := 1, quantity := 5 }], 1, none⟩ "RCP-2") ∧
    exOutCash.1.cashRegisters
      = (if jsToLower exCash.name = "cash"
         then applyCashSale exDb.cashRegisters exReg exOutCash.2.final_total
         else exDb.cashRegisters) := by
  constructor
  · exact (claim10_cash_update_independent exDb [{ product_id := 1, quantity := 5 }] 1
      (some 50) none "RCP-2").1
  · obtain ⟨reg, pm, hreg, hpm, hregs⟩ :=
      (claim10_cash_update_independent exDb [{ product_id := 1, quantity := 5 }] 1
        (some 50) none "RCP-2").2 exOutCash.1 exOutCash.2
        (ok_of_isOk exRunCash (exDb, dummyTransaction) (by with_unfolding_all decide))
    have e1 : reg = exReg := by
      have hx : findActiveRegister exDb = some exReg := by with_unfolding_all decide
      exact Option.some.inj (hreg.symm.trans hx)
    have e2 : pm = exCash := by
      have hx : lookupActivePaymentMethod exDb 1 = some exCash := by with_unfolding_all decide
      exact Option.some.inj (hpm.symm.trans hx)
    subst e1; subst e2
    exact hregs

/-! Lemmas about product validation and line-item construction. -/

theorem lookupActiveProduct_id {db : DB} {pid : Nat} {p : Product}
    (h : lookupActiveProduct db pid = some p) : p.id = pid ∧ p.is_active = true := by
  have hp := List.find?_some h
  simp only [Bool.and_eq_true, beq_iff_eq] at hp
  exact hp

theorem productLookup_collect (db : DB) (ids : List Nat) (pid : Nat) (p : Product)
    (hmem : pid ∈ ids) (hp : lookupActiveProduct db pid = some p) :
    productLookup (collectProducts db ids) pid = some p := by
  induction ids with
  | nil => cases hmem
  | cons a t ih =>
    cases hfa : lookupActiveProduct db a with
    | none =>
      rcases List.mem_cons.mp hmem with rfl | hmt
      · rw [hfa] at hp; cases hp
      · simp only [collectProducts, List.filterMap_cons, hfa]
        exact ih hmt
    | some q =>
      have hqa : q.id = a := (lookupActiveProduct_id hfa).1
      by_cases hqp : q.id = pid
      · have hap : a = pid := by rw [← hqa]; exact hqp
        subst hap
        have hq : q = p := Option.some.inj (hfa.symm.trans hp)
        subst hq
        simp only [collectProducts, List.filterMap_cons, hfa, productLookup]
        exact List.find?_cons_of_pos _ (by simp [hqp])
      · rcases List.mem_cons.mp hmem with rfl | hmt
        · exact absurd hqa hqp
        · simp only [collectProducts, List.filterMap_cons, hfa, productLookup]
          rw [List.find?_cons_of_neg _ (by simp [hqp])]
          exact ih hmt

theorem collect_length_forall {db : DB} {ids : List Nat}
    (h : (collectProducts db ids).length = ids.length) :
    ∀ pid ∈ ids, ∃ p, lookupActiveProduct db pid = some p := by
  induction ids with
  | nil => intro pid hpid; cases hpid
  | cons a t ih =>
    intro pid hpid
    cases hfa : lookupActiveProduct db a with
    | none =>
      exfalso
      have hle := List.length_filterMap_le (lookupActiveProduct db) t
      have hx : (List.filterMap (lookupActiveProduct db) t).length = t.length + 1 := by
        simpa [collectProducts, List.filterMap_cons, hfa] using h
      omega
    | some q =>
      rcases List.mem_cons.mp hpid with rfl | hmt
      · exact ⟨q, hfa⟩
      · refine ih ?_ pid hmt
        have hx : (List.filterMap (lookupActiveProduct db) t).length + 1 = t.length + 1 := by
          simpa [collectProducts, List.filterMap_cons, hfa] using h
        exact Nat.succ.inj hx

theorem computeItemDetails_ok_nth (products : List Product) :
    ∀ (items : List CartItem) (details : List ItemDetail),
      computeItemDetails products items = .ok details →
      details.length = items.length ∧
      ∀ (i : Nat) (hi : i < items.length) (hj : i < details.length),
        ∃ p, productLookup products items[i].product_id = some p ∧
          details[i] = { product_id := items[i].product_id,
                         quantity := items[i].quantity,
                         unit_price := p.price_after_discount,
                         total_price := p.price_after_discount * (items[i].quantity : ℚ) } := by
  intro items
  induction items with
  | nil =>
    intro details h
    simp only [computeItemDetails] at h
    have hd : ([] : List ItemDetail) = details := Except.ok.inj h
    subst hd
    exact ⟨rfl, fun i hi _ => absurd hi (by simp)⟩
  | cons it rest ih =>
    intro details h
    simp only [computeItemDetails] at h
    cases hl : productLookup products it.product_id with
    | none => rw [hl] at h; cases h
    | some p =>
      rw [hl] at h
      cases hr : computeItemDetails products rest with
      | error e => rw [hr] at h; cases h
      | ok ds =>
        rw [hr] at h
        have hd : ({ product_id := it.product_id, quantity := it.quantity,
                     unit_price := p.price_after_discount,
                     total_price := p.price_after_discount * (it.quantity : ℚ) } : ItemDetail)
            :: ds = details := Except.ok.inj h
        subst hd
        obtain ⟨hlen, hnth⟩ := ih ds hr
        refine ⟨by simp [hlen], ?_⟩
        intro i hi hj
        cases i with
        | zero => exact ⟨p, hl, rfl⟩
        | succ n =>
          have hi2 : n < rest.length := by simpa using hi
          have hj2 : n < ds.length := by simpa using hj
          obtain ⟨q, hq1, hq2⟩ := hnth n hi2 hj2
          exact ⟨q, hq1, hq2⟩

/-- Claim C6: for every successful run, the inserted line items carry the
product's `price_after_discount` as unit price (products being active),
line totals are unit price × quantity, and the stored subtotal is the sum
of the line totals. -/
theorem claim6_line_pricing (db : DB) (input : CreateTransactionInput) (rid : String)
    (db2 : DB) (tx : Transaction) (h : createTransaction db input rid = .ok (db2, tx)) :
    ∃ newItems : List TransactionItem,
      db2.transactionItems = db.transactionItems ++ newItems ∧
      newItems.length = input.items.length ∧
      tx.subtotal = (newItems.map (fun it => it.total_price)).sum ∧
      ∀ (i : Nat) (hi : i < input.items.length) (hj : i < newItems.length),
        ∃ p, lookupActiveProduct db input.items[i].product_id = some p ∧
          p.is_active = true ∧
          newItems[i].product_id = input.items[i].product_id ∧
          newItems[i].quantity = input.items[i].quantity ∧
          newItems[i].unit_price = p.price_after_discount ∧
          newItems[i].total_price
            = p.price_after_discount * (input.items[i].quantity : ℚ) := by
  obtain ⟨reg, details, pm, hreg, hlen, hdet, hpm, hout⟩ :=
    createTransaction_ok db input rid (db2, tx) h
  have h1 : db2 = (mkSuccess db input rid reg details pm).1 := congrArg Prod.fst hout
  have h2 : tx = (mkSuccess db input rid reg details pm).2 := congrArg Prod.snd hout
  subst h1; subst h2
  obtain ⟨hdlen, hnth⟩ := computeItemDetails_ok_nth _ input.items details hdet
  refine ⟨details.map (fun d =>
      ({ transaction_id := db.nextTransactionId, product_id := d.product_id,
         quantity := d.quantity, unit_price := d.unit_price,
         total_price := d.total_price } : TransactionItem)),
    mkSuccess_items db input rid reg details pm, by simp [hdlen], ?_, ?_⟩
  · rw [mkSuccess_subtotal, List.map_map]
    rfl
  · intro i hi hj
    have hj2 : i < details.length := by simpa using hj
    obtain ⟨p, hp1, hp2⟩ := hnth i hi hj2
    have hpid : input.items[i].product_id ∈ input.items.map (fun item => item.product_id) :=
      List.mem_map_of_mem (fun item => item.product_id) (List.getElem_mem hi)
    obtain ⟨q, hq⟩ := collect_length_forall hlen input.items[i].product_id hpid
    have hpl : productLookup (collectProducts db (input.items.map (fun item => item.product_id)))
        input.items[i].product_id = some q :=
      productLookup_collect db _ _ q hpid hq
    have hpq : p = q := Option.some.inj (hp1.symm.trans hpl)
    rw [← hpq] at hq
    refine ⟨p, hq, (lookupActiveProduct_id hq).2, ?_, ?_, ?_, ?_⟩ <;> simp [hp2]

/-- Witness for C6: in the card run (empty initial item table) the
persisted items' totals sum to the stored subtotal, one line per cart
line. -/
theorem claim6_witness :
    exOutCard.2.subtotal
      = ((exOutCard.1.transactionItems).map (fun it => it.total_price)).sum ∧
    exOutCard.1.transactionItems.length = (exInputQty 2 5 (some 50)).items.length := by
  obtain ⟨newItems, hitems, hilen, hsub, -⟩ := claim6_line_pricing exDb
    (exInputQty 2 5 (some 50)) "RCP-1" exOutCard.1 exOutCard.2
    (ok_of_isOk exRunCard (exDb, dummyTransaction) (by with_unfolding_all decide))
  have he : newItems = exOutCard.1.transactionItems := hitems.symm
  rw [← he]
  exact ⟨hsub, hilen⟩

/-- Claim C8: opening a register when one is already open for the same
date fails; closing an already-closed or nonexistent register fails; a
successful close records the counted cash, sets
`surplus_shortage = counted - (starting_capital + cash_sales_total)`,
sets the closed flag and stamps a close time, persisting the updated
row. -/
theorem claim8_register_lifecycle :
    (∀ (db : DB) (today : String) (sc : ℚ) (now : Nat),
       (∃ r ∈ db.cashRegisters, r.date = today ∧ r.is_closed = false) →
       openCashRegister db today sc now = .error alreadyOpenTodayMsg) ∧
    (∀ (db : DB) (regId : Nat) (acc : ℚ) (now : Nat) (r : CashRegister),
       db.cashRegisters.find? (fun x => x.id == regId) = some r → r.is_closed = true →
       closeCashRegister db regId acc now = .error alreadyClosedMsg) ∧
    (∀ (db : DB) (regId : Nat) (acc : ℚ) (now : Nat),
       (∀ r ∈ db.cashRegisters, r.id ≠ regId) →
       closeCashRegister db regId acc now = .error registerNotFoundMsg) ∧
    (∀ (db : DB) (regId : Nat) (acc : ℚ) (now : Nat) (db2 : DB) (r2 : CashRegister),
       closeCashRegister db regId acc now = .ok (db2, r2) →
       r2.actual_cash_counted = some acc ∧
       r2.surplus_shortage = some (acc - (r2.starting_capital + r2.cash_sales_total)) ∧
       r2.is_closed = true ∧
       r2.closed_at = some now ∧
       r2 ∈ db2.cashRegisters) := by
  refine ⟨?_, ?_, ?_, ?_⟩
  · rintro db today sc now ⟨r, hr, hdate, hopen⟩
    have hany : db.cashRegisters.any (fun x => x.date == today && !x.is_closed) = true := by
      rw [List.any_eq_true]
      exact ⟨r, hr, by simp [hdate, hopen]⟩
    simp [openCashRegister, hany]
  · intro db regId acc now r hfind hclosed
    simp [closeCashRegister, hfind, hclosed]
  · intro db regId acc now hnone
    have hf : db.cashRegisters.find? (fun x => x.id == regId) = none := by
      rw [List.find?_eq_none]
      intro x hx
      simp [hnone x hx]
    simp [closeCashRegister, hf]
  · intro db regId acc now db2 r2 h
    simp only [closeCashRegister] at h
    cases hfind : db.cashRegisters.find? (fun x => x.id == regId) with
    | none =>
      simp only [hfind] at h
      cases h
    | some register =>
      simp only [hfind] at h
      by_cases hcl : register.is_closed
      · rw [if_pos hcl] at h; cases h
      · rw [if_neg hcl] at h
        have hp := Except.ok.inj h
        have hdb : ({ db with cashRegisters := db.cashRegisters.map (fun r =>
            if r.id = regId then
              closeUpdate acc
                (acc - (register.starting_capital + register.cash_sales_total)) now r
            else r) } : DB) = db2 := congrArg Prod.fst hp
        have hr2 : closeUpdate acc
            (acc - (register.starting_capital + register.cash_sales_total)) now register
            = r2 := congrArg Prod.snd hp
        subst hdb
        subst hr2
        refine ⟨rfl, rfl, rfl, rfl, ?_⟩
        have hid : register.id = regId := by simpa using List.find?_some hfind
        have hmem := List.mem_map_of_mem (fun r =>
          if r.id = regId then
            closeUpdate acc
              (acc - (register.starting_capital + register.cash_sales_total)) now r
          else r) (List.mem_of_find?_eq_some hfind)
        simpa [hid] using hmem

/-- Witness for C8: re-opening 2026-02-01 fails; closing the closed
register 2 fails; closing the absent id 99 fails; closing the open
register 1 with 95 counted records counted cash, surplus, flag, time, and
persists the updated row. -/
theorem claim8_witness :
    openCashRegister exDb "2026-02-01" 100 9 = .error alreadyOpenTodayMsg ∧
    closeCashRegister exDb 2 70 9 = .error alreadyClosedMsg ∧
    closeCashRegister exDb 99 70 9 = .error registerNotFoundMsg ∧
    (exOutClose.2.actual_cash_counted = some 95 ∧
     exOutClose.2.surplus_shortage
       = some (95 - (exOutClose.2.starting_capital + exOutClose.2.cash_sales_total)) ∧
     exOutClose.2.is_closed = true ∧
     exOutClose.2.closed_at = some 7 ∧
     exOutClose.2 ∈ exOutClose.1.cashRegisters) := by
  refine ⟨?_, ?_, ?_, ?_⟩
  · exact claim8_register_lifecycle.1 exDb "2026-02-01" 100 9
      ⟨exReg, by with_unfolding_all decide⟩
  · exact claim8_register_lifecycle.2.1 exDb 2 70 9 exRegClosed
      (by with_unfolding_all decide) (by decide)
  · exact claim8_register_lifecycle.2.2.1 exDb 99 70 9 (by decide)
  · exact claim8_register_lifecycle.2.2.2 exDb 1 95 7 exOutClose.1 exOutClose.2
      (ok_of_isOk exRunClose (exDb, dummyRegister) (by with_unfolding_all decide))

end ArusKaunter
